import Mathlib

/-!
Formal model of check_judol.py, a sitemap fetch-and-scan tool.

The Python source is embedded shallowly: pure string computations become Lean
functions on String and List Char, the network and file system are abstracted
as explicit oracles, and exceptions become explicit sum types.  Every
definition follows the corresponding line of the source; doc comments cite
the Python expressions being modelled.
-/

/-- Whitespace characters removed by Python str.strip() (ASCII subset of
Python whitespace; str.strip with no argument strips these). -/
def isPySpace (c : Char) : Bool :=
  c == ' ' || c == '\t' || c == '\n' || c == '\r' || c == '\x0b' || c == '\x0c'

/-- Model of str.lower() on a character list: per-character lowercasing. -/
def lowerL (l : List Char) : List Char := l.map Char.toLower

/-- Model of str.strip() on a character list: drop leading whitespace, then
drop trailing whitespace. -/
def stripL (l : List Char) : List Char :=
  ((l.dropWhile isPySpace).reverse.dropWhile isPySpace).reverse

/-- Model of text.lower() for the String type. -/
def pyLower (s : String) : String := ⟨lowerL s.data⟩

/-- Model of text.strip() for the String type. -/
def pyStrip (s : String) : String := ⟨stripL s.data⟩

/-- The needle matches at the head of the hay (needle is a prefix). -/
def matchesAt : List Char → List Char → Bool
  | [], _ => true
  | _ :: _, [] => false
  | a :: as, b :: bs => (a == b) && matchesAt as bs

/-- Python substring containment (needle in hay) on character lists: the
needle matches at some position of the hay. -/
def containsSub (n : List Char) : List Char → Bool
  | [] => matchesAt n []
  | b :: bs => matchesAt n (b :: bs) || containsSub n bs

/-- Python membership test needle in hay on strings. -/
def pyIn (needle hay : String) : Bool := containsSub needle.data hay.data

/-- The keyword tuple from fetch_url, line 61 of check_judol.py. -/
def keywords : List String := ["judol", "gacor", "togel", "maxwin"]

/-- Line 60-61: text_lower = text.lower();
has_judol = any(keyword in text_lower for keyword in (...)). -/
def has_judol (text : String) : Bool :=
  keywords.any (fun k => pyIn k (pyLower text))

/-- Line 62: exact_judol is text.strip().lower() compared for equality
with the lowercase keyword judol. -/
def exact_judol (text : String) : Bool :=
  decide (pyLower (pyStrip text) = "judol")

/- ### Lemmas about the scanner primitives -/

theorem matchesAt_iff (n : List Char) : ∀ h : List Char,
    matchesAt n h = true ↔ n <+: h := by
  induction n with
  | nil => intro h; simp [ matchesAt]
  | cons a as ih =>
    intro h
    cases h with
    | nil => simp [ matchesAt]
    | cons b bs =>
      simp [ matchesAt, List.cons_prefix_cons, ih bs, Bool.and_eq_true, beq_iff_eq]

theorem containsSub_iff (n : List Char) : ∀ h : List Char,
    containsSub n h = true ↔ n <:+: h := by
  intro h
  induction h with
  | nil => simp [ containsSub, matchesAt_iff, List.prefix_nil, List.infix_nil]
  | cons b bs ih =>
    simp [ containsSub, Bool.or_eq_true, matchesAt_iff, ih, List.infix_cons_iff]

theorem stripL_infix_of (l : List Char) : stripL l <:+: l := by
  have h1 : l.dropWhile isPySpace <:+ l := List.dropWhile_suffix _
  have h2 : (l.dropWhile isPySpace).reverse.dropWhile isPySpace <:+
      (l.dropWhile isPySpace).reverse := List.dropWhile_suffix _
  have h3 : stripL l <+: l.dropWhile isPySpace := by
    have := List.reverse_prefix.mpr h2
    simpa [ stripL] using this
  exact List.IsInfix.trans (List.IsPrefix.isInfix h3) (List.IsSuffix.isInfix h1)

/- ### Network fetch model (fetch_url, lines 56-72) -/

/-- Outcome of the call session.get(url, timeout=timeout): either a response
(status code r.status_code and body r.text, which requests may report as
missing, modelled as Option) or a raised exception whose message is str(e). -/
inductive GetOutcome where
  | resp (status_code : Nat) (rtext : Option String)
  | exc (msg : String)

/-- The per-URL result dictionary built by fetch_url: either the success
dictionary of line 63-70 or the failure dictionary of line 72. -/
inductive FetchResult where
  | success (url : String) (status_code : Nat) (has_judol exact_judol : Bool)
      (length : Nat)
  | failure (url : String) (error : String)
deriving DecidableEq

/-- Lines 56-72.  The try block performs session.get (abstracted by the
oracle get), computes text as r.text with a missing body replaced by the
empty string, computes the two scanner flags, and
returns the success dictionary; the except-Exception clause returns the
failure dictionary {url, ok: False, error: str(e)}. -/
def fetch_url (get : GetOutcome) (url : String) : FetchResult :=
  match get with
  | GetOutcome.resp status rtext =>
      let text := rtext.getD ""
      FetchResult.success url status (has_judol text) (exact_judol text) text.length
  | GetOutcome.exc m => FetchResult.failure url m

/- ### HTTP session configuration (make_session, lines 46-53) -/

/-- The urllib3 Retry object of line 48: total retry budget, exponential
backoff factor, and the status codes that force a retry. -/
structure RetryPolicy where
  total : Nat
  backoff_factor : ℚ
  status_forcelist : List Nat
deriving DecidableEq

/-- The observable configuration of the requests.Session built by
make_session: the retry policy mounted on both the http and https adapters,
and the session headers sent with every request. -/
structure Session where
  retry : RetryPolicy
  headers : List (String × String)
deriving DecidableEq

/-- Lines 46-53.  Builds the session: Retry(total=retries,
backoff_factor=backoff, status_forcelist=(500, 502, 503, 504)), mounted for
both schemes, plus the static User-Agent header.  The timeout parameter is
accepted (Python default 10) and appears nowhere in the body. -/
def make_session (retries : Nat) (backoff : ℚ) (timeout : Nat) : Session :=
  { retry :=
      { total := retries
      , backoff_factor := backoff
      , status_forcelist := [500, 502, 503, 504] }
  , headers := [("User-Agent", "judol-checker/1.0")] }

/- ### Sitemap parsing (parse_sitemap, lines 30-43) -/

mutual
/-- An ElementTree element: tag, optional text, child elements.  The child
sequence is a mutually defined forest so that all recursion over documents is
structural. -/
inductive XmlNode where
  | elem (tag : String) (text : Option String) (children : XmlForest)
/-- A sequence of sibling elements. -/
inductive XmlForest where
  | nil
  | cons (head : XmlNode) (tail : XmlForest)
end

def XmlNode.tag : XmlNode → String
  | XmlNode.elem t _ _ => t

def XmlNode.text : XmlNode → Option String
  | XmlNode.elem _ tx _ => tx

def XmlNode.children : XmlNode → XmlForest
  | XmlNode.elem _ _ c => c

mutual
/-- All elements with the given tag in the subtree rooted at a node, the node
itself included, in document (preorder) order. -/
def collectTag (target : String) : XmlNode → List XmlNode
  | XmlNode.elem tag tx ch =>
      (if tag = target then [XmlNode.elem tag tx ch] else []) ++
        findAllTag target ch
/-- All elements with the given tag in a forest of subtrees, in document
(preorder) order.  The findall call of line 39/41 with a descendant search
path for tag T is findAllTag T root.children: it
searches every subelement of root at any depth, excluding root itself. -/
def findAllTag (target : String) : XmlForest → List XmlNode
  | XmlForest.nil => []
  | XmlForest.cons c rest => collectTag target c ++ findAllTag target rest
end

/-- Python s.strip with the open-brace character as argument: remove
leading and trailing occurrences of the
brace character. -/
def stripCurly (s : String) : String :=
  ⟨((s.data.dropWhile (fun c => c == '{')).reverse.dropWhile
      (fun c => c == '{')).reverse⟩

/-- Python s.startswith(needle). -/
def pyStartsWith (s needle : String) : Bool := matchesAt needle.data s.data

/-- Python s.split(sep)[0]: everything before the first occurrence of the
separator character (the whole string when the separator is absent). -/
def splitHead (sep : Char) (s : String) : String :=
  ⟨s.data.takeWhile (fun c => !(c == sep))⟩

/-- Lines 35-37: ns is empty unless root.tag starts with an open brace, in
which case ns is the tag text before the first close brace, stripped of
braces. -/
def nsOf (root : XmlNode) : String :=
  if pyStartsWith root.tag "\x7b" then stripCurly (splitHead '}' root.tag)
  else ""

/-- Lines 38-41: the tag searched for is the namespaced loc when ns is
non-empty, else plain loc. -/
def locTarget (root : XmlNode) : String :=
  if nsOf root ≠ "" then "\x7b" ++ nsOf root ++ "\x7dloc" else "loc"

/-- Line 42 element filter: [e.text.strip() for e in locs if e is not None
and e.text].  The guard is Python truthiness of the raw text: the element is
kept exactly when its text is present and non-empty, and contributes the
stripped text. -/
def extractLocText (e : XmlNode) : Option String :=
  match e.text with
  | some t => if t = "" then none else some (pyStrip t)
  | none => none

/-- Lines 30-43: parse_sitemap on an already-parsed document tree. -/
def parse_sitemap (root : XmlNode) : List String :=
  (findAllTag (locTarget root) root.children).filterMap extractLocText

/- ### File-level behaviour of parse_sitemap (ET.parse, line 32) -/

/-- The state of the sitemap file at the given path. -/
inductive SitemapFile where
  | unreadable (msg : String)
  | malformed (msg : String)
  | wellFormed (doc : XmlNode)

/-- Python exception classes raised by ET.parse. -/
inductive PyExc where
  | OSError (msg : String)
  | ParseError (msg : String)
deriving DecidableEq

/-- Model of xml.etree.ElementTree.parse(path): raises an OSError subclass
(FileNotFoundError, PermissionError, ...) when the file cannot be opened,
raises xml.etree.ElementTree.ParseError when the content is not well-formed
markup, and returns the document tree otherwise. -/
def ET_parse : SitemapFile → Except PyExc XmlNode
  | SitemapFile.unreadable m => Except.error (PyExc.OSError m)
  | SitemapFile.malformed m => Except.error (PyExc.ParseError m)
  | SitemapFile.wellFormed doc => Except.ok doc

/-- parse_sitemap including the ET.parse call of line 32: any exception from
ET.parse propagates (there is no try block in parse_sitemap). -/
def parse_sitemap_io (f : SitemapFile) : Except PyExc (List String) :=
  (ET_parse f).map parse_sitemap

/-- True exactly when the outcome is a raised ParseError. -/
def isParseErrorOutcome : Except PyExc (List String) → Bool
  | Except.error (PyExc.ParseError _) => true
  | _ => false

/- ### The pipeline (run_checker, lines 75-88) -/

/-- The report dictionary of line 85: {sitemap, count, results}. -/
structure Report where
  sitemap : String
  count : Nat
  results : List FetchResult
deriving DecidableEq

/-- The session constructed by line 77, make_session(): the Python default
arguments retries=3, backoff=0.3, timeout=10 apply. -/
def run_checker_session : Session := make_session 3 (3 / 10) 10

/-- Line 80: one fetch task is submitted per URL occurrence (the futures
dictionary is keyed by the distinct Future objects, so duplicate URLs keep
distinct tasks).  Task i fetches the i-th URL of the list, and the oracle
get i is the network behaviour seen by task i. -/
def fetchTasks (get : Nat → GetOutcome) (urls : List String) : List FetchResult :=
  (List.range urls.length).map (fun i => fetch_url (get i) (urls.getD i ""))

/-- Lines 75-88.  Parses the sitemap document, submits one fetch_url task
per URL to the ThreadPoolExecutor, appends each task result as the scheduler
completes it (order, the as_completed sequence, is the list of task indices
in completion order), and assembles the report dictionary.  The concurrency
and timeout arguments do not influence which results are collected. -/
def run_checker (get : Nat → GetOutcome) (order : List Nat) (sitemap : String)
    (doc : XmlNode) (concurrency : Nat) (timeout : Nat) : Report :=
  let urls := parse_sitemap doc
  let tasks := fetchTasks get urls
  let results := order.map (fun i => tasks.getD i (FetchResult.failure "" ""))
  { sitemap := sitemap, count := urls.length, results := results }

/- ### JSON report serialization (lines 85-87) -/

/-- A JSON value, as written by json.dump and read back by json.loads. -/
inductive Json where
  | jstr (s : String)
  | jnum (n : Int)
  | jbool (b : Bool)
  | jnull
  | jarr (xs : List Json)
  | jobj (fields : List (String × Json))

/-- The JSON object json.dump writes for one result dictionary, fields in
insertion order.  With ensure_ascii=False the strings are written verbatim,
so the document carries exactly these values. -/
def jsonOfResult : FetchResult → Json
  | FetchResult.success url sc hj ej len =>
      Json.jobj
        [ ("url", Json.jstr url)
        , ("ok", Json.jbool true)
        , ("status_code", Json.jnum (Int.ofNat sc))
        , ("has_judol", Json.jbool hj)
        , ("exact_judol", Json.jbool ej)
        , ("length", Json.jnum (Int.ofNat len)) ]
  | FetchResult.failure url err =>
      Json.jobj
        [ ("url", Json.jstr url)
        , ("ok", Json.jbool false)
        , ("error", Json.jstr err) ]

/-- The JSON document written at lines 85-87 for the whole report. -/
def jsonOfReport (r : Report) : Json :=
  Json.jobj
    [ ("sitemap", Json.jstr r.sitemap)
    , ("count", Json.jnum (Int.ofNat r.count))
    , ("results", Json.jarr (r.results.map jsonOfResult)) ]

/-- Re-parsing one result object from the report file: recognises the two
shapes json.dump produces. -/
def resultOfJson : Json → Option FetchResult
  | Json.jobj
      [ ("url", Json.jstr url)
      , ("ok", Json.jbool true)
      , ("status_code", Json.jnum (Int.ofNat sc))
      , ("has_judol", Json.jbool hj)
      , ("exact_judol", Json.jbool ej)
      , ("length", Json.jnum (Int.ofNat len)) ] =>
      some (FetchResult.success url sc hj ej len)
  | Json.jobj
      [ ("url", Json.jstr url)
      , ("ok", Json.jbool false)
      , ("error", Json.jstr err) ] =>
      some (FetchResult.failure url err)
  | _ => none

/-- Re-parsing the results array element by element. -/
def resultsOfJson : List Json → Option (List FetchResult)
  | [] => some []
  | j :: js =>
      match resultOfJson j, resultsOfJson js with
      | some r, some rs => some (r :: rs)
      | _, _ => none

/-- Re-parsing the whole report file. -/
def reportOfJson : Json → Option Report
  | Json.jobj
      [ ("sitemap", Json.jstr sm)
      , ("count", Json.jnum (Int.ofNat c))
      , ("results", Json.jarr rs) ] =>
      (resultsOfJson rs).map (fun results =>
        { sitemap := sm, count := c, results := results })
  | _ => none

/- ### Concrete instances used by witnesses and counterexamples -/

/-- A two-URL sitemap document that repeats the same URL, as parsed from
standard sitemap markup without a namespace declaration. -/
def twoUrlDoc : XmlNode :=
  XmlNode.elem "urlset" none
    (XmlForest.cons
      (XmlNode.elem "url" none
        (XmlForest.cons (XmlNode.elem "loc" (some "https://example.com/a") XmlForest.nil)
          XmlForest.nil))
      (XmlForest.cons
        (XmlNode.elem "url" none
          (XmlForest.cons (XmlNode.elem "loc" (some "https://example.com/a") XmlForest.nil)
            XmlForest.nil))
        XmlForest.nil))

/-- A network in which every GET raises a connection error. -/
def allFailGet : Nat → GetOutcome := fun _ => GetOutcome.exc "connection refused"

/-- A completion order in which the second task finishes first. -/
def reversedOrder : List Nat := [1, 0]

/-- A sitemap document whose single loc element has whitespace-only text. -/
def wsLocDoc : XmlNode :=
  XmlNode.elem "urlset" none
    (XmlForest.cons
      (XmlNode.elem "url" none
        (XmlForest.cons (XmlNode.elem "loc" (some "   ") XmlForest.nil) XmlForest.nil))
      XmlForest.nil)

example : parse_sitemap twoUrlDoc = ["https://example.com/a", "https://example.com/a"] := by decide
example : parse_sitemap wsLocDoc = [""] := by decide
example : exact_judol " JUDOL " = true := by decide
example : has_judol "xxGaCoRzz" = true := by decide
example : has_judol "welcome" = false := by decide

/- ### Claim theorems -/

/-- Claim C3: for every body text, has_judol is true if and only if the
lowercased body contains at least one of the four keywords judol, gacor,
togel, maxwin as a substring. -/
theorem has_judol_iff_marker_substring (text : String) :
    has_judol text = true ↔ ∃ k ∈ keywords, k.data <:+: (pyLower text).data := by
  simp only [ has_judol, pyIn, List.any_eq_true, containsSub_iff]

/-- Claim C4: for every body text, exact_judol is true if and only if the
body, after trimming leading and trailing whitespace and lowercasing, is
exactly the five characters of the keyword judol. -/
theorem exact_judol_iff_trim_lower (text : String) :
    exact_judol text = true ↔ lowerL (stripL text.data) = ['j', 'u', 'd', 'o', 'l'] := by
  constructor
  · intro h
    have h1 : pyLower (pyStrip text) = "judol" := of_decide_eq_true h
    have h2 : lowerL (stripL text.data) = "judol".data := congrArg String.data h1
    exact h2.trans (by decide)
  · intro h
    apply decide_eq_true
    show String.mk (lowerL (stripL text.data)) = "judol"
    rw [h]

/-- Claim C5: for every body text, exact_judol implies has_judol: a trimmed
lowercased body equal to judol forces the keyword judol to occur in the
lowercased body. -/
theorem exact_judol_implies_has_judol (text : String)
    (h : exact_judol text = true) : has_judol text = true := by
  have h1 : lowerL (stripL text.data) = "judol".data :=
    congrArg String.data (of_decide_eq_true h)
  have h2 : stripL text.data <:+: text.data := stripL_infix_of _
  have h3 : lowerL (stripL text.data) <:+: lowerL text.data :=
    List.IsInfix.map Char.toLower h2
  rw [h1] at h3
  show keywords.any (fun k => pyIn k (pyLower text)) = true
  refine List.any_eq_true.mpr ⟨"judol", by decide, ?_⟩
  show containsSub "judol".data (pyLower text).data = true
  exact (containsSub_iff _ _).mpr h3

/-- Witness for claim C5 at a concrete input with surrounding whitespace and
mixed case. -/
theorem exact_judol_implies_has_judol_witness :
    exact_judol " JUDOL " = true ∧ has_judol " JUDOL " = true :=
  ⟨by decide, exact_judol_implies_has_judol " JUDOL " (by decide)⟩

/-- Claim C2: fetch_url is total on every behaviour of the underlying GET;
a raised exception is captured and returned as the failure dictionary with
the same URL and the textual description, and a response always yields the
success dictionary: no outcome escapes the function. -/
theorem fetch_url_never_raises (g : GetOutcome) (url : String) :
    (∃ m, g = GetOutcome.exc m ∧ fetch_url g url = FetchResult.failure url m) ∨
    (∃ s rt, g = GetOutcome.resp s rt ∧
      fetch_url g url =
        FetchResult.success url s (has_judol (rt.getD "")) (exact_judol (rt.getD ""))
          (rt.getD "").length) := by
  cases g with
  | resp s rt => exact Or.inr ⟨s, rt, rfl, rfl⟩
  | exc m => exact Or.inl ⟨m, rfl, rfl⟩

/-- Claim C9: the session used by run_checker is make_session with the
Python defaults: 3 retries with backoff factor 0.3, retries forced exactly
by statuses 500, 502, 503, 504, and the static identifying User-Agent in
the session headers sent with every request. -/
theorem run_checker_session_config :
    run_checker_session = make_session 3 (3 / 10) 10 ∧
    run_checker_session.retry.total = 3 ∧
    run_checker_session.retry.backoff_factor = 3 / 10 ∧
    run_checker_session.retry.status_forcelist = [500, 502, 503, 504] ∧
    run_checker_session.headers = [("User-Agent", "judol-checker/1.0")] :=
  ⟨rfl, rfl, rfl, rfl, rfl⟩

/-- Claim C10: the timeout parameter of make_session has no effect on the
returned session: any two timeout values produce identical sessions. -/
theorem make_session_ignores_timeout (retries : Nat) (backoff : ℚ)
    (t1 t2 : Nat) : make_session retries backoff t1 = make_session retries backoff t2 :=
  rfl

/-- Reading every position of a list back in order reproduces the list. -/
theorem range_map_getD {α : Type} (d : α) : ∀ l : List α,
    (List.range l.length).map (fun i => l.getD i d) = l := by
  intro l
  induction l with
  | nil => rfl
  | cons a t ih =>
    rw [ List.length_cons, List.range_succ_eq_map, List.map_cons, List.map_map]
    simp only [ Function.comp_def, List.getD_cons_succ, List.getD_cons_zero]
    rw [ih]

/-- Claim C1: for every well-formed sitemap whose loc elements yield N URLs,
run_checker produces a report whose count field is N and whose results list
has exactly N entries, namely one entry per submitted task (one task per URL
occurrence, so duplicates are preserved), collected exactly once in scheduler
completion order, for every concurrency level at least 1. -/
theorem run_checker_exact_results (get : Nat → GetOutcome) (order : List Nat)
    (path : String) (doc : XmlNode) (concurrency timeout : Nat)
    (hconc : 1 ≤ concurrency)
    (hperm : order.Perm (List.range (parse_sitemap doc).length)) :
    (run_checker get order path doc concurrency timeout).count =
      (parse_sitemap doc).length ∧
    (run_checker get order path doc concurrency timeout).results.length =
      (parse_sitemap doc).length ∧
    (run_checker get order path doc concurrency timeout).results.Perm
      (fetchTasks get (parse_sitemap doc)) := by
  refine ⟨rfl, ?_, ?_⟩
  · show (order.map _).length = _
    rw [ List.length_map, hperm.length_eq, List.length_range]
  · show (order.map fun i =>
      (fetchTasks get (parse_sitemap doc)).getD i (FetchResult.failure "" "")).Perm _
    have h1 := hperm.map
      (fun i => (fetchTasks get (parse_sitemap doc)).getD i (FetchResult.failure "" ""))
    have hlen : (parse_sitemap doc).length = (fetchTasks get (parse_sitemap doc)).length := by
      simp [ fetchTasks]
    rw [hlen] at h1
    rw [range_map_getD (FetchResult.failure "" "") (fetchTasks get (parse_sitemap doc))] at h1
    exact h1

/-- Witness for claim C1: a sitemap repeating one URL twice, every GET
failing, concurrency 1, the second task completing first. -/
theorem run_checker_exact_results_witness :
    (1 ≤ 1 ∧ reversedOrder.Perm (List.range (parse_sitemap twoUrlDoc).length)) ∧
    ((run_checker allFailGet reversedOrder "sitemap.xml" twoUrlDoc 1 10).count =
        (parse_sitemap twoUrlDoc).length ∧
      (run_checker allFailGet reversedOrder "sitemap.xml" twoUrlDoc 1 10).results.length =
        (parse_sitemap twoUrlDoc).length ∧
      (run_checker allFailGet reversedOrder "sitemap.xml" twoUrlDoc 1 10).results.Perm
        (fetchTasks allFailGet (parse_sitemap twoUrlDoc))) :=
  ⟨⟨by decide, by decide⟩,
    run_checker_exact_results allFailGet reversedOrder "sitemap.xml" twoUrlDoc 1 10
      (by decide) (by decide)⟩

/- ### Claim C6: the spec's description of loc extraction -/

/-- Modelled from the spec's words, for comparison with the code: trimmed
loc text values, "skipping elements with empty or missing text", read with
the claim that no empty string ever appears in the output: an element is
skipped when its text is missing or trims to the empty string. -/
def claimedLocText (e : XmlNode) : Option String :=
  match e.text with
  | some t => if pyStrip t = "" then none else some (pyStrip t)
  | none => none

/-- The URL sequence described by the spec sentence for claim C6. -/
def spec_parse_sitemap (root : XmlNode) : List String :=
  (findAllTag (locTarget root) root.children).filterMap claimedLocText

theorem filterMap_claimed_eq_filter (l : List XmlNode) :
    l.filterMap claimedLocText =
      (l.filterMap extractLocText).filter (fun u => !(u == "")) := by
  induction l with
  | nil => rfl
  | cons e rest ih =>
    obtain ⟨tag, tx, ch⟩ := e
    rcases tx with _ | t
    · simpa [ List.filterMap_cons, claimedLocText, extractLocText, XmlNode.text] using ih
    · by_cases ht : t = ""
      · subst ht
        have h0 : pyStrip "" = "" := rfl
        simpa [ List.filterMap_cons, claimedLocText, extractLocText, XmlNode.text, h0]
          using ih
      · by_cases hs : pyStrip t = ""
        · simpa [ List.filterMap_cons, claimedLocText, extractLocText, XmlNode.text,
            ht, hs] using ih
        · simpa [ List.filterMap_cons, claimedLocText, extractLocText, XmlNode.text,
            ht, hs] using ih

/-- Counterexample to claim C6: in a sitemap whose loc element has
whitespace-only text, the code guard keeps the element (the raw text is
truthy) and stripping yields the empty string, so an empty string appears in
parse_sitemap output, while the list described by the spec sentence is
empty. -/
theorem parse_sitemap_keeps_empty_string :
    parse_sitemap wsLocDoc = [""] ∧ spec_parse_sitemap wsLocDoc = [] :=
  ⟨by decide, by decide⟩

/-- Claim C6 (amended): parse_sitemap returns the trimmed texts of the loc
elements in document order, skipping only those whose raw text is missing or
empty; a whitespace-only text therefore contributes an empty string, and
dropping empty strings from the returned list yields exactly the sequence
the spec describes. -/
theorem parse_sitemap_amended (root : XmlNode) :
    spec_parse_sitemap root = (parse_sitemap root).filter (fun u => !(u == "")) :=
  filterMap_claimed_eq_filter (findAllTag (locTarget root) root.children)

/- ### Claims C7 and C8 -/

/-- Counterexample to claim C7: when the sitemap file cannot be opened the
run fails, but with an OSError (FileNotFoundError or PermissionError), not
with ParseError as the claim states. -/
theorem parse_sitemap_unreadable_oserror :
    parse_sitemap_io (SitemapFile.unreadable "No such file or directory") =
      Except.error (PyExc.OSError "No such file or directory") ∧
    isParseErrorOutcome
      (parse_sitemap_io (SitemapFile.unreadable "No such file or directory")) = false :=
  ⟨rfl, rfl⟩

/-- Claim C7 (amended): parse_sitemap fails with ParseError exactly when the
document is not well-formed markup; an unopenable file raises an OSError
instead; and on every well-formed document it returns the URL list without
raising. -/
theorem parse_sitemap_io_characterization (f : SitemapFile) :
    (isParseErrorOutcome (parse_sitemap_io f) = true ↔
      ∃ m, f = SitemapFile.malformed m) ∧
    parse_sitemap_io f =
      (match f with
        | SitemapFile.unreadable m => Except.error (PyExc.OSError m)
        | SitemapFile.malformed m => Except.error (PyExc.ParseError m)
        | SitemapFile.wellFormed doc => Except.ok (parse_sitemap doc)) := by
  cases f with
  | unreadable m =>
    exact ⟨by simp [ parse_sitemap_io, ET_parse, isParseErrorOutcome, Except.map], rfl⟩
  | malformed m =>
    exact ⟨by simp [ parse_sitemap_io, ET_parse, isParseErrorOutcome, Except.map], rfl⟩
  | wellFormed doc =>
    exact ⟨by simp [ parse_sitemap_io, ET_parse, isParseErrorOutcome, Except.map], rfl⟩

theorem resultOfJson_jsonOfResult (r : FetchResult) :
    resultOfJson (jsonOfResult r) = some r := by
  cases r <;> rfl

theorem resultsOfJson_map (rs : List FetchResult) :
    resultsOfJson (rs.map jsonOfResult) = some rs := by
  induction rs with
  | nil => rfl
  | cons r rest ih =>
    simp [ List.map_cons, resultsOfJson, resultOfJson_jsonOfResult, ih]

/-- Claim C8: serializing the report dictionary {sitemap, count, results} and
re-parsing the serialized document yields a structurally identical report,
field for field, for success and failure results alike; string fields
(including non-ASCII text, written unescaped under ensure_ascii=False) pass
through verbatim. -/
theorem report_json_round_trip (rep : Report) :
    reportOfJson (jsonOfReport rep) = some rep := by
  obtain ⟨sm, c, res⟩ := rep
  have h : reportOfJson (jsonOfReport ⟨sm, c, res⟩) =
      (resultsOfJson (res.map jsonOfResult)).map
        (fun results => { sitemap := sm, count := c, results := results }) := rfl
  rw [h, resultsOfJson_map]
  rfl
